import Mathlib

/-!
Shallow embedding of the backend sequencing logic of the AI Study Assistant
(src/backend/main.py): the LLM client wrapper `llm_chat`, the three pipeline
nodes (`summarizer_node`, `quiz_generator_node`, `evaluator_node`), the
compiled linear graph, and the two HTTP endpoints `/api/study` and
`/api/evaluate`.

The external chat-completion API is modelled by an oracle
`String → Option String`: `some text` is a successful completion whose first
choice's message content is `text`, and `none` stands for any fault on the
call (network error, malformed response, missing content) — exactly the
cases caught by the `except Exception` block in `llm_chat`.

Python string primitives used by the source (`str.strip`, `str.splitlines`,
`str.split('.', 1)[-1]`, `line[0].isdigit()`, `line.startswith("-")`) are
given explicit executable counterparts below, defined over the character
list of the string so that proofs can proceed by list induction.
-/

/-- Python whitespace for `str.strip()` (ASCII part: space, tab, newline,
carriage return, vertical tab, form feed). -/
def isPySpace (c : Char) : Bool :=
  c = ' ' || c = '\t' || c = '\n' || c = '\r' || c = '\x0b' || c = '\x0c'

/-- `str.strip()`: drop leading and trailing whitespace. -/
def pyStrip (s : String) : String :=
  ⟨((s.data.dropWhile isPySpace).reverse.dropWhile isPySpace).reverse⟩

/-- Worker for `str.splitlines()`: accumulate the current line (reversed in
`acc`) and cut at each line boundary; a boundary at the very end of the
string does not open a final empty line, and `"\r\n"` counts as a single
boundary. -/
def splitlinesAux (acc : List Char) : List Char → List (List Char)
  | [] => [acc.reverse]
  | '\r' :: '\n' :: rest =>
      acc.reverse :: (if rest.isEmpty then [] else splitlinesAux [] rest)
  | '\n' :: rest =>
      acc.reverse :: (if rest.isEmpty then [] else splitlinesAux [] rest)
  | '\r' :: rest =>
      acc.reverse :: (if rest.isEmpty then [] else splitlinesAux [] rest)
  | c :: rest => splitlinesAux (c :: acc) rest

/-- `str.splitlines()`: split on line boundaries, no trailing empty line;
the empty string has no lines. -/
def pySplitlines (s : String) : List String :=
  if s.data.isEmpty then [] else (splitlinesAux [] s.data).map (fun l => ⟨l⟩)

/-- The characters after the first `'.'`, or `none` when there is no
period. -/
def afterFirstDot : List Char → Option (List Char)
  | [] => none
  | c :: rest => if c = '.' then some rest else afterFirstDot rest

/-- `line.split('.', 1)[-1]`: everything after the first period when one is
present, the whole string otherwise. -/
def pySplitDot1Last (s : String) : String :=
  match afterFirstDot s.data with
  | some rest => ⟨rest⟩
  | none => s

/-- `line[0].isdigit()` guarded by non-emptiness (ASCII digits). -/
def headIsDigit (s : String) : Bool :=
  match s.data with
  | [] => false
  | c :: _ => c.isDigit

/-- `line.startswith("-")`. -/
def startsDash (s : String) : Bool :=
  match s.data with
  | '-' :: _ => true
  | _ => false

/-- The completion oracle: `some text` is a successful call whose extracted
content is `text`; `none` is any fault raised by the call. -/
abbrev Oracle : Type := String → Option String

/-- `llm_chat(prompt)`: on success return the stripped content of the first
choice; any exception is caught and converted to the empty string. -/
def llm_chat (oracle : Oracle) (prompt : String) : String :=
  match oracle prompt with
  | some text => pyStrip text
  | none => ""

/-- One line of the quiz-parsing loop body in `quiz_generator_node`: strip
the line; keep it only if non-empty and starting with a digit or a hyphen;
then take what follows the first period (the whole line when there is no
period), strip it, and keep it only if non-empty. -/
def keepLine (line : String) : Option String :=
  let t := pyStrip line
  if !t.isEmpty && (headIsDigit t || startsDash t) then
    let q := pyStrip (pySplitDot1Last t)
    if !q.isEmpty then some q else none
  else none

/-- The quiz parser of `quiz_generator_node`: run `keepLine` over the lines
of the raw text; if no question survives, fall back to the single-element
list holding the entire raw text. -/
def parseQuiz (raw : String) : List String :=
  let questions := (pySplitlines raw).filterMap keepLine
  if questions.isEmpty then [raw] else questions

/-- A value stored in the pipeline-state dict: every key observed in the
source holds either a string or a list of strings. -/
inductive Value
  | str : String → Value
  | list : List String → Value
deriving DecidableEq, Repr

/-- The pipeline-state dict, as an association list of string keys. -/
abbrev PState : Type := List (String × Value)

/-- Dict lookup: the value at key `k`, if present. -/
def lookupState (st : PState) (k : String) : Option Value :=
  (List.find? (fun p => p.1 = k) st).map Prod.snd

/-- `state.get(k, "")`: the string stored at `k`, or `""` when the key is
absent. (A list-typed value at a string-typed key never occurs in any
reachable state; it also maps to the default here.) -/
def getStr (st : PState) (k : String) : String :=
  match lookupState st k with
  | some (Value.str s) => s
  | _ => ""

/-- `state.get(k, [])`: the list stored at `k`, or `[]` when the key is
absent. -/
def getList (st : PState) (k : String) : List String :=
  match lookupState st k with
  | some (Value.list l) => l
  | _ => []

/-- Dict assignment `st[k] = v`: overwrite the value when the key is
present, append the binding otherwise. -/
def setKey (st : PState) (k : String) (v : Value) : PState :=
  if List.any st (fun p => p.1 = k) then
    List.map (fun p => if p.1 = k then (k, v) else p) st
  else st ++ [(k, v)]

/-- LangGraph state merge for a `dict` schema: each key of the node's
partial update is written into the running state, later keys overwriting
earlier same-named ones. -/
def mergeState (st : PState) (upd : PState) : PState :=
  List.foldl (fun acc p => setKey acc p.1 p.2) st upd

/-- Prompt template of `summarizer_node`. -/
def summarizerPrompt (topic : String) : String :=
  "Explain the topic '" ++ topic ++ "' in 3–4 clear sentences for a student. "
    ++ "Make it easy to understand and include one simple example."

/-- Prompt template of `quiz_generator_node`. -/
def quizPrompt (summary : String) : String :=
  "Based on this summary:\n" ++ summary ++ "\n\n"
    ++ "Create 3 simple quiz questions to test understanding. "
    ++ "Return them as numbered lines 1., 2., 3."

/-- One `"{i}. Q: {q}\n   A: {a}\n"` line of the grading prompt. -/
def qaLine (i : Nat) (q a : String) : String :=
  toString i ++ ". Q: " ++ q ++ "\n   A: " ++ a ++ "\n"

/-- The question/answer lines of the grading prompt: positional pairing of
questions and answers (`zip`, truncating to the shorter sequence),
1-indexed enumeration. -/
def qaLines (questions answers : List String) : List String :=
  (List.enumFrom 1 (List.zip questions answers)).map
    (fun p => qaLine p.1 p.2.1 p.2.2)

/-- Grading prompt of `evaluator_node`: fixed header, the summary, then the
accumulated question/answer lines. -/
def evaluatorPrompt (summary : String) (questions answers : List String) :
    String :=
  "You are a tutor grading short answers.\n"
    ++ "Given the topic summary, the quiz questions, and the student's answers, "
    ++ "grade each as Correct / Partially Correct / Incorrect and give one-sentence feedback.\n\n"
    ++ "Summary:\n" ++ summary ++ "\n\nQuestions & Answers:\n"
    ++ String.join (qaLines questions answers)

/-- `summarizer_node(state, config)`: one completion call on the summary
prompt; returns the partial update and the list of prompts sent. -/
def summarizer_node (oracle : Oracle) (state : PState) :
    PState × List String :=
  let topic := getStr state "topic"
  let prompt := summarizerPrompt topic
  let summary := llm_chat oracle prompt
  ([("summary", Value.str summary)], [prompt])

/-- `quiz_generator_node(state, config)`: one completion call on the quiz
prompt, then the line parser with its single-element fallback. -/
def quiz_generator_node (oracle : Oracle) (state : PState) :
    PState × List String :=
  let summary := getStr state "summary"
  let prompt := quizPrompt summary
  let quiz_text := llm_chat oracle prompt
  let questions := parseQuiz quiz_text
  ([("quiz_text", Value.str quiz_text),
    ("quiz_questions", Value.list questions)], [prompt])

/-- `evaluator_node(state, config)`: one completion call on the grading
prompt built from the summary and the zipped question/answer pairs. -/
def evaluator_node (oracle : Oracle) (state : PState) :
    PState × List String :=
  let questions := getList state "quiz_questions"
  let answers := getList state "user_answers"
  let summary := getStr state "summary"
  let prompt := evaluatorPrompt summary questions answers
  let feedback := llm_chat oracle prompt
  ([("feedback", Value.str feedback)], [prompt])

/-- `graph.invoke(initial)`: the compiled graph is the fixed linear chain
summarizer → quiz_generator → evaluator (entered at summarizer, finishing
after evaluator), each node's partial update merged into the running state
before the next node runs. Also returns the concatenated call log. -/
def graphInvoke (oracle : Oracle) (initial : PState) :
    PState × List String :=
  let r1 := summarizer_node oracle initial
  let s1 := mergeState initial r1.1
  let r2 := quiz_generator_node oracle s1
  let s2 := mergeState s1 r2.1
  let r3 := evaluator_node oracle s2
  (mergeState s2 r3.1, r1.2 ++ r2.2 ++ r3.2)

/-- `StudyRequest`: pydantic model with the single required field
`topic: str`. -/
structure StudyRequest where
  topic : String
deriving DecidableEq, Repr

/-- `EvalRequest`: pydantic model with required `topic` and three optional
fields defaulting to `None`. -/
structure EvalRequest where
  topic : String
  summary : Option String
  quiz_questions : Option (List String)
  user_answers : Option (List String)
deriving DecidableEq, Repr

/-- Pydantic body validation for `StudyRequest`: `topic: str` has no
default, so a body without `topic` is rejected with a validation error
(HTTP 422) before the handler runs. -/
def parseStudyRequest (topic : Option String) :
    Except String StudyRequest :=
  match topic with
  | some t => Except.ok ⟨t⟩
  | none => Except.error "field required: topic"

/-- Pydantic body validation for `EvalRequest`: `topic: str` is required,
the other three fields default to `None` when absent. -/
def parseEvalRequest (topic : Option String) (summary : Option String)
    (quiz_questions : Option (List String))
    (user_answers : Option (List String)) : Except String EvalRequest :=
  match topic with
  | some t => Except.ok ⟨t, summary, quiz_questions, user_answers⟩
  | none => Except.error "field required: topic"

/-- Python `x or ""` on an optional string (`None` and `""` are falsy). -/
def orEmptyStr (x : Option String) : String :=
  match x with
  | some s => if s.isEmpty then "" else s
  | none => ""

/-- Python `x or []` on an optional list (`None` and `[]` are falsy). -/
def orEmptyList (x : Option (List String)) : List String :=
  match x with
  | some l => if l.isEmpty then [] else l
  | none => []

/-- The `POST /api/study` handler: run the compiled graph on
`{"topic": req.topic}` and build the response dict; `result.get("feedback", "")`
defaults to the empty string. Returns the response and the call log. -/
def study (oracle : Oracle) (req : StudyRequest) :
    PState × List String :=
  let initial : PState := [("topic", Value.str req.topic)]
  let result := graphInvoke oracle initial
  ([("topic", Value.str req.topic),
    ("summary", Value.str (getStr result.1 "summary")),
    ("quiz_questions", Value.list (getList result.1 "quiz_questions")),
    ("quiz_text", Value.str (getStr result.1 "quiz_text")),
    ("feedback", Value.str (getStr result.1 "feedback"))], result.2)

/-- The `POST /api/evaluate` handler: build the state from the request with
`or`-defaults, run `evaluator_node` alone, and answer
`{"feedback": feedback}`. Returns the response and the call log. -/
def evaluate (oracle : Oracle) (req : EvalRequest) :
    PState × List String :=
  let state : PState :=
    [("topic", Value.str req.topic),
     ("summary", Value.str (orEmptyStr req.summary)),
     ("quiz_questions", Value.list (orEmptyList req.quiz_questions)),
     ("user_answers", Value.list (orEmptyList req.user_answers))]
  let r := evaluator_node oracle state
  ([("feedback", Value.str (getStr r.1 "feedback"))], r.2)

example : parseQuiz "1. A?\n2. B?" = ["A?", "B?"] := by decide
example : pySplitlines "a\n" = ["a"] := by decide
example : pySplitlines "" = [] := by decide
example : pySplitlines "a\r\nb" = ["a", "b"] := by decide
example : pyStrip "  x y " = "x y" := by decide
example : keepLine "1) no dot" = some "1) no dot" := by decide

/-! ### Helper lemmas -/

/-- A line whose stripped form fails the keep test (empty, or starting with
neither a digit nor a hyphen) contributes no question. -/
lemma keepLine_eq_none_of_not_selected (l : String)
    (h : (!(pyStrip l).isEmpty
          && (headIsDigit (pyStrip l) || startsDash (pyStrip l))) = false) :
    keepLine l = none := by
  unfold keepLine
  simp only [h]
  rfl

/-- When a list of characters has no period, `afterFirstDot` finds none. -/
lemma afterFirstDot_eq_none (l : List Char) (h : '.' ∉ l) :
    afterFirstDot l = none := by
  induction l with
  | nil => rfl
  | cons c rest ih =>
      have hc : c ≠ '.' := fun hcc => h (hcc ▸ List.mem_cons_self c rest)
      have hrest : '.' ∉ rest := fun hr => h (List.mem_cons_of_mem c hr)
      simpa [afterFirstDot, hc] using ih hrest

/-- Dict assignment never removes a key. -/
lemma setKey_keys_mono (st : PState) (k' : String) (v : Value) (k : String)
    (h : k ∈ st.map Prod.fst) : k ∈ (setKey st k' v).map Prod.fst := by
  unfold setKey
  split
  · rcases List.mem_map.mp h with ⟨p, hp, hpk⟩
    refine List.mem_map.mpr ⟨if p.1 = k' then (k', v) else p, List.mem_map.mpr ⟨p, hp, rfl⟩, ?_⟩
    by_cases hc : p.1 = k'
    · rw [if_pos hc]
      exact hc ▸ hpk
    · rw [if_neg hc]
      exact hpk
  · simp only [List.map_append, List.mem_append]
    exact Or.inl h

/-- Merging a partial update never removes a key from the running state. -/
lemma mergeState_keys_mono (upd : PState) :
    ∀ st : PState, ∀ k : String, k ∈ st.map Prod.fst →
      k ∈ (mergeState st upd).map Prod.fst := by
  induction upd with
  | nil => intro st k h; simpa [mergeState] using h
  | cons p rest ih =>
      intro st k h
      simp only [mergeState, List.foldl_cons]
      exact ih (setKey st p.1 p.2) k (setKey_keys_mono st p.1 p.2 k h)

/-! ### Claim theorems -/

/-- C4: on well-formed numbered input, quiz parsing strips the numbering
and preserves order: `"1. What is X?\n2. What is Y?\n3. What is Z?"` parses
to exactly `["What is X?", "What is Y?", "What is Z?"]`. -/
theorem C4_parse_numbered :
    parseQuiz "1. What is X?\n2. What is Y?\n3. What is Z?"
      = ["What is X?", "What is Y?", "What is Z?"] := by decide

/-- C5: when no stripped line of the raw quiz text is non-empty with a
leading digit or hyphen, parsing falls back to the single-element list
holding the entire raw text; and for every raw text the parsed list is
non-empty. -/
theorem C5_fallback_nonempty :
    (∀ raw : String,
        (∀ l ∈ pySplitlines raw,
            (!(pyStrip l).isEmpty
              && (headIsDigit (pyStrip l) || startsDash (pyStrip l))) = false) →
        parseQuiz raw = [raw])
    ∧ ∀ raw : String, parseQuiz raw ≠ [] := by
  constructor
  · intro raw h
    have hnil : (pySplitlines raw).filterMap keepLine = [] :=
      List.filterMap_eq_nil_iff.mpr fun l hl => keepLine_eq_none_of_not_selected l (h l hl)
    simp [parseQuiz, hnil]
  · intro raw
    unfold parseQuiz
    by_cases hq : (List.filterMap keepLine (pySplitlines raw)).isEmpty = true
    · simp [hq]
    · simp only [Bool.not_eq_true] at hq
      simp only [hq, Bool.false_eq_true, if_false]
      intro hcon
      simp [hcon] at hq

/-- C5 witness: the fallback on `"No numbered content here."` and
non-emptiness on a concrete raw text. -/
theorem C5_fallback_nonempty_witness :
    parseQuiz "No numbered content here." = ["No numbered content here."]
    ∧ parseQuiz "abc" ≠ [] :=
  ⟨C5_fallback_nonempty.1 "No numbered content here." (by decide),
   C5_fallback_nonempty.2 "abc"⟩

/-- C10: a stripped line that passes the keep test (non-empty, leading
digit or hyphen) but contains no period character is emitted verbatim as
the question, digit or hyphen included — the numbering is only stripped
when a period occurs in the line. -/
theorem C10_no_period_kept_verbatim (s : String)
    (h1 : pyStrip s = s) (h2 : s.isEmpty = false)
    (h3 : (headIsDigit s || startsDash s) = true) (h4 : '.' ∉ s.data) :
    keepLine s = some s := by
  have hdot : afterFirstDot s.data = none := afterFirstDot_eq_none s.data h4
  have hsplit : pySplitDot1Last s = s := by
    unfold pySplitDot1Last
    rw [hdot]
  simp [keepLine, h1, h2, h3, hsplit]

/-- C10 witness: `"- What is gravity"` (no period) is kept verbatim,
hyphen included. -/
theorem C10_no_period_kept_verbatim_witness :
    keepLine "- What is gravity" = some "- What is gravity" :=
  C10_no_period_kept_verbatim "- What is gravity"
    (by decide) (by decide) (by decide) (by decide)

/-- C6: the grading prompt pairs questions and answers positionally and
truncates to the shorter sequence — the number of question/answer lines is
`min` of the two lengths — and with 3 questions and 1 answer exactly one
pair is rendered (positions 2 and 3 dropped). -/
theorem C6_zip_truncates :
    (∀ questions answers : List String,
        (qaLines questions answers).length
          = min questions.length answers.length)
    ∧ qaLines ["Q1", "Q2", "Q3"] ["A1"] = [qaLine 1 "Q1" "A1"] := by
  constructor
  · intro questions answers
    simp [qaLines]
  · decide

/-- C1 counterexample: with a completion oracle answering `"FB"` to every
prompt, the `/api/study` response has `feedback = "FB"`, not `""` — the
compiled graph does invoke the Evaluator on this path. -/
theorem C1_counterexample :
    getStr (study (fun _ => some "FB") ⟨"math"⟩).1 "feedback" ≠ "" := by
  decide

/-- C1 (amended): for every StudyRequest the `/api/study` response contains
exactly the keys topic, summary, quiz_questions, quiz_text, feedback, in
that order; but the Evaluator IS invoked on this path — the three
completion calls are the summarizer, quiz and grading prompts (the latter
with the empty answers list) — and `feedback` is the Evaluator's completion
output, not always `""`. -/
theorem C1_amended (oracle : Oracle) (req : StudyRequest) :
    (study oracle req).1.map Prod.fst
      = ["topic", "summary", "quiz_questions", "quiz_text", "feedback"]
    ∧ (study oracle req).2
      = [summarizerPrompt req.topic,
         quizPrompt (llm_chat oracle (summarizerPrompt req.topic)),
         evaluatorPrompt (llm_chat oracle (summarizerPrompt req.topic))
           (parseQuiz (llm_chat oracle
             (quizPrompt (llm_chat oracle (summarizerPrompt req.topic))))) []]
    ∧ getStr (study oracle req).1 "feedback"
      = llm_chat oracle
          (evaluatorPrompt (llm_chat oracle (summarizerPrompt req.topic))
            (parseQuiz (llm_chat oracle
              (quizPrompt (llm_chat oracle (summarizerPrompt req.topic))))) []) :=
  ⟨rfl, rfl, rfl⟩

/-- C2 counterexample: a `/api/study` body without `topic` fails pydantic
validation (`topic: str` has no default) — it is rejected with a client
error, not processed as if the topic were the empty string. -/
theorem C2_counterexample :
    parseStudyRequest none = Except.error "field required: topic"
    ∧ parseStudyRequest none ≠ Except.ok ⟨""⟩ :=
  ⟨rfl, fun h => Except.noConfusion h⟩

/-- C2 (amended): on `/api/evaluate` the optional fields summary,
quiz_questions and user_answers are defaulted to empty string/sequence when
absent rather than rejected; but `topic` is required on both endpoints, and
a request missing `topic` is rejected with a validation error instead of
being treated as an empty topic. -/
theorem C2_amended (t : String) (oracle : Oracle) :
    parseStudyRequest none = Except.error "field required: topic"
    ∧ parseEvalRequest none none none none
        = Except.error "field required: topic"
    ∧ parseEvalRequest (some t) none none none
        = Except.ok ⟨t, none, none, none⟩
    ∧ evaluate oracle ⟨t, none, none, none⟩
        = evaluate oracle ⟨t, some "", some [], some []⟩ :=
  ⟨rfl, rfl, rfl, rfl⟩

/-- C3: when every completion call faults, `llm_chat` returns `""` and
never propagates the fault; each node still returns its well-formed partial
update with the output field `""` (the quiz parser falls back to `[""]`),
and both endpoints still return their well-formed success bodies. -/
theorem C3_failure_isolated (oracle : Oracle) (p : String) (st : PState)
    (req : StudyRequest) (ereq : EvalRequest) (h : ∀ q, oracle q = none) :
    llm_chat oracle p = ""
    ∧ (summarizer_node oracle st).1 = [("summary", Value.str "")]
    ∧ (quiz_generator_node oracle st).1
        = [("quiz_text", Value.str ""), ("quiz_questions", Value.list [""])]
    ∧ (evaluator_node oracle st).1 = [("feedback", Value.str "")]
    ∧ (study oracle req).1
        = [("topic", Value.str req.topic), ("summary", Value.str ""),
           ("quiz_questions", Value.list [""]), ("quiz_text", Value.str ""),
           ("feedback", Value.str "")]
    ∧ (evaluate oracle ereq).1 = [("feedback", Value.str "")] := by
  have hfun : oracle = fun _ => none := funext h
  subst hfun
  exact ⟨rfl, rfl, rfl, rfl, rfl, rfl⟩

/-- C3 witness: the failure-isolation contract at the always-faulting
oracle, an arbitrary prompt, the empty state and concrete requests. -/
theorem C3_failure_isolated_witness :
    llm_chat (fun _ => none) "any prompt" = ""
    ∧ (summarizer_node (fun _ => none) []).1 = [("summary", Value.str "")]
    ∧ (quiz_generator_node (fun _ => none) []).1
        = [("quiz_text", Value.str ""), ("quiz_questions", Value.list [""])]
    ∧ (evaluator_node (fun _ => none) []).1 = [("feedback", Value.str "")]
    ∧ (study (fun _ => none) ⟨"t"⟩).1
        = [("topic", Value.str "t"), ("summary", Value.str ""),
           ("quiz_questions", Value.list [""]), ("quiz_text", Value.str ""),
           ("feedback", Value.str "")]
    ∧ (evaluate (fun _ => none) ⟨"t", none, none, none⟩).1
        = [("feedback", Value.str "")] :=
  C3_failure_isolated (fun _ => none) "any prompt" [] ⟨"t"⟩
    ⟨"t", none, none, none⟩ (fun _ => rfl)

/-- C7: an `/api/evaluate` request with empty question and answer lists
produces a grading prompt with zero question/answer lines, and the
Evaluator still issues exactly one completion call — the grading prompt
itself. -/
theorem C7_empty_lists_still_one_call (oracle : Oracle) (t : String)
    (s : Option String) :
    qaLines [] [] = []
    ∧ (evaluate oracle ⟨t, s, some [], some []⟩).2
        = [evaluatorPrompt (orEmptyStr s) [] []]
    ∧ (evaluate oracle ⟨t, s, some [], some []⟩).2.length = 1 :=
  ⟨rfl, rfl, rfl⟩

/-- C8: for every EvalRequest, `/api/evaluate` runs the Evaluator alone on
the caller-supplied summary, questions and answers — the single completion
call is the grading prompt, so neither the Summarizer nor the QuizGenerator
runs — and the response body is exactly the one-key dict `{feedback}` with
a string value. -/
theorem C8_evaluate_runs_evaluator_alone (oracle : Oracle)
    (req : EvalRequest) :
    (evaluate oracle req).1
      = [("feedback", Value.str (llm_chat oracle
          (evaluatorPrompt (orEmptyStr req.summary)
            (orEmptyList req.quiz_questions) (orEmptyList req.user_answers))))]
    ∧ (evaluate oracle req).2
      = [evaluatorPrompt (orEmptyStr req.summary)
          (orEmptyList req.quiz_questions) (orEmptyList req.user_answers)]
    ∧ (evaluate oracle req).2.length = 1 :=
  ⟨rfl, rfl, rfl⟩

/-- C9: each node's partial update adds exactly its own keys
(`{summary}`, `{quiz_text, quiz_questions}`, `{feedback}`), the three key
sets are pairwise disjoint, merging never removes a key from the running
state, and in the study pipeline no merge overwrites an existing key: the
initial `topic` and each node's values survive unchanged to the final
state. -/
theorem C9_keys_monotone_disjoint (oracle : Oracle) (st upd : PState)
    (topic : String) (k : String) (h : k ∈ st.map Prod.fst) :
    (summarizer_node oracle st).1.map Prod.fst = ["summary"]
    ∧ (quiz_generator_node oracle st).1.map Prod.fst
        = ["quiz_text", "quiz_questions"]
    ∧ (evaluator_node oracle st).1.map Prod.fst = ["feedback"]
    ∧ List.Disjoint ["summary"] ["quiz_text", "quiz_questions"]
    ∧ List.Disjoint ["summary"] ["feedback"]
    ∧ List.Disjoint ["quiz_text", "quiz_questions"] ["feedback"]
    ∧ k ∈ (mergeState st upd).map Prod.fst
    ∧ lookupState (graphInvoke oracle [("topic", Value.str topic)]).1 "topic"
        = some (Value.str topic)
    ∧ lookupState (graphInvoke oracle [("topic", Value.str topic)]).1 "summary"
        = some (Value.str (llm_chat oracle (summarizerPrompt topic)))
    ∧ lookupState (graphInvoke oracle [("topic", Value.str topic)]).1 "quiz_text"
        = some (Value.str (llm_chat oracle
            (quizPrompt (llm_chat oracle (summarizerPrompt topic)))))
    ∧ lookupState (graphInvoke oracle [("topic", Value.str topic)]).1 "quiz_questions"
        = some (Value.list (parseQuiz (llm_chat oracle
            (quizPrompt (llm_chat oracle (summarizerPrompt topic)))))) :=
  ⟨rfl, rfl, rfl, by simp [List.Disjoint], by simp [List.Disjoint],
   by simp [List.Disjoint], mergeState_keys_mono upd st k h, rfl, rfl, rfl, rfl⟩

/-- C9 witness: key preservation under merge at concrete state and
update. -/
theorem C9_keys_monotone_disjoint_witness :
    "a" ∈ (mergeState [("a", Value.str "x")] [("b", Value.str "y")]).map
      Prod.fst :=
  (C9_keys_monotone_disjoint (fun _ => none) [("a", Value.str "x")]
    [("b", Value.str "y")] "t" "a" (by decide)).2.2.2.2.2.2.1

